import Mathlib

/-!
Verification of the YouTube-audio downloader CLI (src/main.py).

The program is a thin CLI driver: `download_audio` assembles a `ydl_opts`
dictionary, conditionally inserts an `ffmpeg_location` entry, prints a
progress line, delegates the fetch-and-convert work to the external
`YoutubeDL` collaborator via `ydl.download([url])`, and on any exception
prints the message to stderr and exits with status 1.  `main` parses the
CLI arguments (with argparse defaults `output = "."` and
`ffmpeg_location = None`) and calls `download_audio`.

We embed the program shallowly:
  * the options dictionary becomes the structure `YdlOpts`; the
    conditionally present `ffmpeg_location` key is an `Option String`
    field (`none` = key absent from the dict);
  * the external collaborator is an arbitrary function
    `dl : YdlOpts → List String → Except String Unit` (`Except.error e`
    models `download` raising an exception with message `e`);
  * observable behaviour is a trace of events (stdout line, stderr line,
    the delegated call) together with the process exit status.
-/

/-- One entry of the `postprocessors` list in `ydl_opts`. -/
structure Postprocessor where
  key : String
  preferredcodec : String
  preferredquality : String
deriving DecidableEq, Repr

/-- The `ydl_opts` dictionary built by `download_audio`.  The keys that are
always present become plain fields; the conditionally inserted
`ffmpeg_location` key is an `Option String` (`none` = key absent). -/
structure YdlOpts where
  format : String
  outtmpl : String
  postprocessors : List Postprocessor
  quiet : Bool
  noplaylist : Bool
  ffmpeg_location : Option String
deriving DecidableEq, Repr

/-- Python truthiness of the `ffmpeg_location` parameter (`str` or `None`):
`None` and the empty string are falsy, every other string is truthy. -/
def truthy : Option String → Bool
  | none => false
  | some s => s ≠ ""

/-- The `ydl_opts` value assembled by `download_audio` (src/main.py lines
34–48): the fixed base dictionary, plus the `ffmpeg_location` key exactly
when the parameter is truthy. -/
def buildOpts (output_dir : String) (ffmpeg_location : Option String) : YdlOpts :=
  let base : YdlOpts :=
    { format := "bestaudio/best"
      outtmpl := output_dir ++ "/%(title)s.%(ext)s"
      postprocessors :=
        [{ key := "FFmpegExtractAudio"
           preferredcodec := "mp3"
           preferredquality := "192" }]
      quiet := false
      noplaylist := true
      ffmpeg_location := none }
  if truthy ffmpeg_location then { base with ffmpeg_location := ffmpeg_location }
  else base

/-- An observable event of one run: a line printed to stdout, a line
printed to stderr, or the delegated `ydl.download(urls)` call with the
options the `YoutubeDL` object was constructed from. -/
inductive Ev where
  | out (line : String)
  | err (line : String)
  | call (opts : YdlOpts) (urls : List String)
deriving DecidableEq, Repr

/-- The collaborator interface: given the options and the url list,
either return normally or raise an exception with the given message. -/
def Downloader : Type := YdlOpts → List String → Except String Unit

/-- Shallow embedding of `download_audio` (src/main.py lines 26–57),
parameterised by the external collaborator `dl`.  Returns the event trace
and `some code` when the function calls `sys.exit(code)` (`none` when it
returns normally).  The first print, the delegated call, and the second
print sit inside the `try`; the `except` branch prints `Error: {e}` to
stderr and exits with status 1. -/
def download_audio (dl : Downloader) (url output_dir : String)
    (ffmpeg_location : Option String) : List Ev × Option Nat :=
  let ydl_opts := buildOpts output_dir ffmpeg_location
  match dl ydl_opts [url] with
  | Except.ok _ =>
      ([Ev.out ("Downloading and converting: " ++ url),
        Ev.call ydl_opts [url],
        Ev.out ("Download complete! MP3 saved to  " ++ output_dir)], none)
  | Except.error e =>
      ([Ev.out ("Downloading and converting: " ++ url),
        Ev.call ydl_opts [url],
        Ev.err ("Error: " ++ e)], some 1)

/-- The parsed argparse namespace of `main` (src/main.py lines 60–75):
`url` is positional, `-o` (`--output`) defaults to `"."`, `--ffmpeg-location`
defaults to `None`. -/
structure Args where
  url : String
  output : String
  ffmpeg_location : Option String
deriving DecidableEq, Repr

/-- Argument parsing as performed by argparse: a `none` in `output?` or
`ffmpegLoc?` models the flag being omitted on the command line, in which
case the declared default (`"."`, resp. `None`) applies. -/
def parseArgs (url : String) (output? ffmpegLoc? : Option String) : Args :=
  { url := url
    output := output?.getD "."
    ffmpeg_location := ffmpegLoc? }

/-- Shallow embedding of one whole process invocation: `main` parses the
arguments and calls `download_audio`; if `download_audio` returns without
calling `sys.exit`, the interpreter exits with status 0. -/
def runMain (dl : Downloader) (url : String) (output? ffmpegLoc? : Option String) :
    List Ev × Nat :=
  let a := parseArgs url output? ffmpegLoc?
  match download_audio dl a.url a.output a.ffmpeg_location with
  | (evs, some code) => (evs, code)
  | (evs, none) => (evs, 0)

/-- Is this event the delegated download call? -/
def isCall : Ev → Bool
  | Ev.call _ _ => true
  | _ => false

/-- Number of delegated download calls in a trace. -/
def countCalls (trace : List Ev) : Nat := (trace.filter isCall).length

/-- The options of the first delegated call in a trace, if any. -/
def callOpts : List Ev → Option YdlOpts
  | [] => none
  | Ev.call o _ :: _ => some o
  | _ :: rest => callOpts rest

/-- A collaborator that always fails with message `boom`, used to
exercise the error path on concrete inputs. -/
def dlFail : Downloader := fun _ _ => Except.error "boom"

/-- A collaborator that always succeeds, used to exercise the success
path on concrete inputs. -/
def dlOk : Downloader := fun _ _ => Except.ok ()

/-- In every run the trace contains the delegated call, with the options
built by `buildOpts` and the single-element url list. -/
lemma call_mem_download_audio (dl : Downloader) (url od : String) (fl : Option String) :
    Ev.call (buildOpts od fl) [url] ∈ (download_audio dl url od fl).1 := by
  unfold download_audio
  cases h : dl (buildOpts od fl) [url] <;> simp [h]

/-- The `format` key never depends on the inputs. -/
lemma buildOpts_format (od : String) (fl : Option String) :
    (buildOpts od fl).format = "bestaudio/best" := by
  unfold buildOpts; split <;> rfl

/-- The `outtmpl` key is the chosen directory followed by the title/ext
template. -/
lemma buildOpts_outtmpl (od : String) (fl : Option String) :
    (buildOpts od fl).outtmpl = od ++ "/%(title)s.%(ext)s" := by
  unfold buildOpts; split <;> rfl

/-- The `postprocessors` key is always the single MP3-at-192 extraction
step. -/
lemma buildOpts_postprocessors (od : String) (fl : Option String) :
    (buildOpts od fl).postprocessors =
      [{ key := "FFmpegExtractAudio"
         preferredcodec := "mp3"
         preferredquality := "192" }] := by
  unfold buildOpts; split <;> rfl

/-- The `noplaylist` key is always `True`. -/
lemma buildOpts_noplaylist (od : String) (fl : Option String) :
    (buildOpts od fl).noplaylist = true := by
  unfold buildOpts; split <;> rfl

/-- Claim C1: for every url, output directory and ffmpeg location, the
options structure `download_audio` builds and hands to the downloader
collaborator requests `bestaudio/best`, uses the outtmpl
`output_dir ++ "/%(title)s.%(ext)s"`, contains exactly one
audio-extraction post-processing step targeting MP3 at quality `192`,
and sets `noplaylist` to `True`. -/
theorem C1_options_structure (dl : Downloader) (url od : String) (fl : Option String) :
    Ev.call (buildOpts od fl) [url] ∈ (download_audio dl url od fl).1 ∧
    (buildOpts od fl).format = "bestaudio/best" ∧
    (buildOpts od fl).outtmpl = od ++ "/%(title)s.%(ext)s" ∧
    (buildOpts od fl).postprocessors =
      [{ key := "FFmpegExtractAudio"
         preferredcodec := "mp3"
         preferredquality := "192" }] ∧
    (buildOpts od fl).noplaylist = true :=
  ⟨call_mem_download_audio dl url od fl, buildOpts_format od fl,
   buildOpts_outtmpl od fl, buildOpts_postprocessors od fl,
   buildOpts_noplaylist od fl⟩

/-- Claim C2: whenever the downloader collaborator raises, the message is
printed to stderr as `Error: {e}` and the process exits with status 1. -/
theorem C2_error_caught (dl : Downloader) (url : String) (output? ffl? : Option String)
    (e : String)
    (h : dl (buildOpts (output?.getD ".") ffl?) [url] = Except.error e) :
    Ev.err ("Error: " ++ e) ∈ (runMain dl url output? ffl?).1 ∧
    (runMain dl url output? ffl?).2 = 1 := by
  simp [runMain, parseArgs, download_audio, h]

/-- Witness for C2 at a concrete always-failing collaborator. -/
theorem C2_error_caught_witness :
    Ev.err ("Error: " ++ "boom") ∈ (runMain dlFail "u" none none).1 ∧
    (runMain dlFail "u" none none).2 = 1 :=
  C2_error_caught dlFail "u" none none "boom" rfl

/-- Claim C3: the process exits 0 exactly when the delegated download
returns without raising, and exits 1 exactly when an error was caught. -/
theorem C3_exit_codes (dl : Downloader) (url : String) (output? ffl? : Option String) :
    ((runMain dl url output? ffl?).2 = 0 ↔
      dl (buildOpts (output?.getD ".") ffl?) [url] = Except.ok ()) ∧
    ((runMain dl url output? ffl?).2 = 1 ↔
      ∃ e, dl (buildOpts (output?.getD ".") ffl?) [url] = Except.error e) := by
  cases h : dl (buildOpts (output?.getD ".") ffl?) [url] with
  | ok u => cases u; simp [runMain, parseArgs, download_audio, h]
  | error e => simp [runMain, parseArgs, download_audio, h]

/-- Counterexample to claim C4 as stated: when `--ffmpeg-location` is
supplied with the empty string, the value is NOT placed under the
`ffmpeg_location` key — the key is absent. -/
theorem C4_counterexample :
    ¬ (buildOpts "." (some "")).ffmpeg_location = some "" := by
  simp [buildOpts, truthy]

/-- Claim C4 (amended): if `--ffmpeg-location` is supplied with a
non-empty value, that value is placed under the `ffmpeg_location` key;
if it is omitted, or supplied as the empty string, the key is absent. -/
theorem C4_ffmpeg_routing (od s : String) (h : s ≠ "") :
    (buildOpts od (some s)).ffmpeg_location = some s ∧
    (buildOpts od none).ffmpeg_location = none ∧
    (buildOpts od (some "")).ffmpeg_location = none := by
  refine ⟨?_, ?_, ?_⟩ <;> simp [buildOpts, truthy, h]

/-- Witness for the amended C4 at the concrete value `/usr/bin`. -/
theorem C4_ffmpeg_routing_witness :
    ("/usr/bin" : String) ≠ "" ∧
    ((buildOpts "." (some "/usr/bin")).ffmpeg_location = some "/usr/bin" ∧
     (buildOpts "." none).ffmpeg_location = none ∧
     (buildOpts "." (some "")).ffmpeg_location = none) :=
  ⟨by decide, C4_ffmpeg_routing "." "/usr/bin" (by decide)⟩

/-- Claim C5: omitting `-o` makes the output directory default to `"."`,
so the options handed to the collaborator carry the outtmpl
`./%(title)s.%(ext)s`. -/
theorem C5_default_output (dl : Downloader) (url : String) (ffl? : Option String) :
    (parseArgs url none ffl?).output = "." ∧
    callOpts (runMain dl url none ffl?).1 = some (buildOpts "." ffl?) ∧
    (buildOpts "." ffl?).outtmpl = "./%(title)s.%(ext)s" := by
  refine ⟨rfl, ?_, by rw [buildOpts_outtmpl]; rfl⟩
  cases h : dl (buildOpts "." ffl?) [url] <;>
    simp [runMain, parseArgs, download_audio, h, callOpts]

/-- Claim C6: every url string — empty or implausible included — is passed
unchanged, as a single-element list, to the collaborator's download
operation; no local validation path exists. -/
theorem C6_no_url_validation (dl : Downloader) (url : String) (output? ffl? : Option String) :
    Ev.call (buildOpts (output?.getD ".") ffl?) [url] ∈ (runMain dl url output? ffl?).1 := by
  cases h : dl (buildOpts (output?.getD ".") ffl?) [url] <;>
    simp [runMain, parseArgs, download_audio, h]

/-- Claim C8: the delegated download is invoked exactly once per run, and
on failure the only event after the call is the error print — no retry
call and no cleanup event precedes the exit. -/
theorem C8_no_retries (dl : Downloader) (url od : String) (fl : Option String) :
    countCalls (download_audio dl url od fl).1 = 1 ∧
    (∀ e, dl (buildOpts od fl) [url] = Except.error e →
      download_audio dl url od fl =
        ([Ev.out ("Downloading and converting: " ++ url),
          Ev.call (buildOpts od fl) [url],
          Ev.err ("Error: " ++ e)], some 1)) := by
  constructor
  · cases h : dl (buildOpts od fl) [url] <;>
      simp [download_audio, h, countCalls, isCall]
  · intro e h
    simp [download_audio, h]

/-- Witness for C8 at a concrete always-failing collaborator. -/
theorem C8_no_retries_witness :
    countCalls (download_audio dlFail "u" "." none).1 = 1 ∧
    download_audio dlFail "u" "." none =
      ([Ev.out ("Downloading and converting: " ++ "u"),
        Ev.call (buildOpts "." none) ["u"],
        Ev.err ("Error: " ++ "boom")], some 1) :=
  ⟨(C8_no_retries dlFail "u" "." none).1,
   (C8_no_retries dlFail "u" "." none).2 "boom" rfl⟩

/-- Claim C9: supplying `ffmpeg_location` as the empty string behaves
exactly like omitting it — the options are identical to the `None` case
and the `ffmpeg_location` key is absent. -/
theorem C9_empty_ffmpeg_like_none (od : String) :
    buildOpts od (some "") = buildOpts od none ∧
    (buildOpts od (some "")).ffmpeg_location = none := by
  constructor <;> simp [buildOpts, truthy]

/-- Claim C10: option assembly is deterministic — the options handed to
the collaborator are exactly `buildOpts od fl`, a pure function of the
output directory and ffmpeg location, identical across runs with equal
inputs and independent of everything else (the collaborator and even the
url included). -/
theorem C10_options_deterministic (dl dl' : Downloader) (url url' od : String)
    (fl : Option String) :
    callOpts (download_audio dl url od fl).1 = some (buildOpts od fl) ∧
    callOpts (download_audio dl url od fl).1 =
      callOpts (download_audio dl' url' od fl).1 := by
  have key : ∀ (d : Downloader) (u : String),
      callOpts (download_audio d u od fl).1 = some (buildOpts od fl) := by
    intro d u
    cases h : d (buildOpts od fl) [u] <;> simp [download_audio, h, callOpts]
  exact ⟨key dl url, (key dl url).trans (key dl' url').symm⟩
